import Mathlib

/-!
Verification of the RFID-servo access controller (src/4BTask-1.py).

Shallow embedding. The Python class RFIDServoController holds a
configuration dict, two mutable state fields (servo_control_enabled,
current_servo_pos) and a serial handle. We embed:

  * the configuration dict as structure Config (built-in defaults of
    __init__ become the structure defaults; load_config merges an
    arbitrary JSON overlay with no validation, so theorems quantify
    over arbitrary Config values where the overlay matters);
  * the mutable fields, plus two observation traces, as SysState:
    emitted  - the sequence of command dicts passed to send_command
               (emission order, independent of transport outcome);
    wire     - the lines actually written to the serial port;
    faults   - an oracle of pending SerialException outcomes, one per
               write attempt (send_command catches the exception and
               only prints, so a fault drops the wire line and nothing
               else);
  * json.dumps (default separators, ensure_ascii) as a character-list
    builder, and the trailing newline of send_command;
  * handle_rfid_data with its byte-by-byte chr decode and str.strip;
  * the card-registration branch of process_user_input as
    register_card.
-/

set_option autoImplicit false

namespace RFIDServo

/-- Command dicts built by the source and passed to send_command:
led commands from control_led (line 116), servo enable from
enable_servo_control / disable_servo_control (lines 123, 129), servo
position from set_servo_position (line 135) and the periodic status
dict from send_status_updates (lines 150-160). -/
inductive Command where
  | setLed (color : String) (state : Bool)
  | servoEnable (b : Bool)
  | servoSetPosition (angle : Int)
  | statusSnapshot (position : Int) (enabled : Bool) (cards_registered : Nat)
deriving DecidableEq, Repr

/-- Configuration dict of __init__ (lines 12-20); the field defaults are
the built-in defaults. load_config (lines 64-74) overlays a JSON file
over these with dict.update and no validation, so an arbitrary Config
value models a post-load configuration. led_pins is an association list
(dict of color name to pin number). -/
structure Config where
  vendor_id : Nat := 0x1234
  product_id : Nat := 0x5678
  authorized_cards : List String := ["A1B2C3D4", "E5F6G7H8"]
  servo_default_pos : Int := 90
  servo_allowed_pos : Int := 180
  baud_rate : Nat := 9600
  led_pins : List (String × Nat) := [("green", 3), ("red", 4)]
deriving DecidableEq, Repr

def defaultConfig : Config := {}

/-- Mutable system state (lines 23-24) plus the observation traces
described in the file header. -/
structure SysState where
  servo_control_enabled : Bool
  current_servo_pos : Int
  emitted : List Command
  wire : List String
  faults : List Bool
deriving DecidableEq, Repr

/-- State right after __init__ (lines 23-24): servo disabled, position
at the built-in servo_default_pos (the config at that point is still
the built-in one), nothing emitted yet; the fault oracle is free. -/
def initState : SysState :=
  { servo_control_enabled := false
    current_servo_pos := defaultConfig.servo_default_pos
    emitted := []
    wire := []
    faults := [] }

/-! ## JSON encoding (json.dumps with default separators and
ensure_ascii=True, as called at line 142) -/

/-- Decimal digit character for n % 10. -/
def decDigit (n : Nat) : Char := Char.ofNat (48 + n % 10)

/-- Decimal digit string of a natural number, most significant digit
first, as Python renders int. -/
def decChars (n : Nat) : List Char :=
  if h : n < 10 then [decDigit n]
  else decChars (n / 10) ++ [decDigit n]
decreasing_by exact Nat.div_lt_self (by omega) (by omega)

/-- Python int rendering for possibly negative values. -/
def intChars (i : Int) : List Char :=
  if i < 0 then '-' :: decChars i.natAbs else decChars i.toNat

/-- Python bool rendering in json.dumps. -/
def boolChars (b : Bool) : List Char :=
  if b then ['t', 'r', 'u', 'e'] else ['f', 'a', 'l', 's', 'e']

/-- Lowercase hex digit for n < 16, as in the \uXXXX escapes of
json.dumps. -/
def hexDigit (n : Nat) : Char :=
  if n < 10 then Char.ofNat (48 + n) else Char.ofNat (87 + n)

/-- Four lowercase hex digits of n < 0x10000. -/
def hex4 (n : Nat) : List Char :=
  [hexDigit (n / 4096 % 16), hexDigit (n / 256 % 16),
   hexDigit (n / 16 % 16), hexDigit (n % 16)]

/-- One \uXXXX escape. -/
def uEscape (n : Nat) : List Char := '\\' :: 'u' :: hex4 n

/-- Escaping of one character inside a JSON string literal, following
json.dumps with ensure_ascii=True: the two-character escapes, \uXXXX
for other control or non-ASCII characters, a surrogate pair above the
basic multilingual plane, and the character itself otherwise. -/
def jsonEscapeChar (c : Char) : List Char :=
  if c = '"' then ['\\', '"']
  else if c = '\\' then ['\\', '\\']
  else if c = '\n' then ['\\', 'n']
  else if c = '\r' then ['\\', 'r']
  else if c = '\t' then ['\\', 't']
  else if c = '\x08' then ['\\', 'b']
  else if c = '\x0c' then ['\\', 'f']
  else if c.toNat < 0x20 ∨ 0x7e < c.toNat then
    if 0xffff < c.toNat then
      uEscape (0xd800 + (c.toNat - 0x10000) / 0x400) ++
      uEscape (0xdc00 + (c.toNat - 0x10000) % 0x400)
    else uEscape c.toNat
  else [c]

/-- A JSON string literal: quote, escaped characters, quote. -/
def jsonQuote (s : String) : List Char :=
  '"' :: (s.data.flatMap jsonEscapeChar) ++ ['"']

/-- json.dumps of each command dict, with the default separators
(a comma-space and colon-space) Python uses. The dict shapes are the
literals at lines 116, 123, 129, 135 and 150-160 of the source. -/
def encodeChars : Command → List Char
  | .setLed color state =>
      "\x7b\"led\": \x7b".data ++ jsonQuote color ++ ": ".data ++
      boolChars state ++ "\x7d\x7d".data
  | .servoEnable b =>
      "\x7b\"servo\": \x7b\"enable\": ".data ++ boolChars b ++ "\x7d\x7d".data
  | .servoSetPosition angle =>
      "\x7b\"servo\": \x7b\"set_position\": ".data ++ intChars angle ++ "\x7d\x7d".data
  | .statusSnapshot pos en n =>
      "\x7b\"status\": \x7b\"servo\": \x7b\"position\": ".data ++ intChars pos ++
      ", \"enabled\": ".data ++ boolChars en ++
      "\x7d, \"rfid\": \x7b\"cards_registered\": ".data ++ decChars n ++
      "\x7d\x7d\x7d".data

/-- json.dumps(command) as a string. -/
def encode (c : Command) : String := String.mk (encodeChars c)

/-- json_str of send_command (line 142): json.dumps(command) + a
newline; its UTF-8 bytes are what ser.write sends. -/
def encodeLine (c : Command) : String := String.mk (encodeChars c ++ ['\n'])

/-! ## Transport and operations -/

/-- send_command (lines 139-145): always records the attempted command
in the emission trace; the write reaches the wire unless the fault
oracle says this attempt raises SerialException, which the source
catches and merely prints — state and control flow are unaffected. -/
def send_command (cmd : Command) (s : SysState) : SysState :=
  { s with
    emitted := s.emitted ++ [cmd]
    faults := s.faults.tail
    wire := if s.faults.headD false then s.wire else s.wire ++ [encodeLine cmd] }

/-- control_led (lines 112-117): look the color up in the led_pins
dict; if a pin exists, send the led command, otherwise do nothing. -/
def control_led (cfg : Config) (color : String) (state : Bool) (s : SysState) : SysState :=
  match List.lookup color cfg.led_pins with
  | some _ => send_command (.setLed color state) s
  | none => s

/-- enable_servo_control (lines 119-123). -/
def enable_servo_control (cfg : Config) (s : SysState) : SysState :=
  send_command (.servoEnable true)
    { s with servo_control_enabled := true, current_servo_pos := cfg.servo_allowed_pos }

/-- disable_servo_control (lines 125-129). -/
def disable_servo_control (cfg : Config) (s : SysState) : SysState :=
  send_command (.servoEnable false)
    { s with servo_control_enabled := false, current_servo_pos := cfg.servo_default_pos }

/-- set_servo_position (lines 131-137): guard 0 <= angle <= 180, update
the position and send on acceptance, report the boolean outcome. -/
def set_servo_position (angle : Int) (s : SysState) : Bool × SysState :=
  if 0 ≤ angle ∧ angle ≤ 180 then
    (true, send_command (.servoSetPosition angle) { s with current_servo_pos := angle })
  else (false, s)

/-- grant_access (lines 96-102): green led on, enable servo control,
dwell (time.sleep has no effect on the embedded state), green led
off. -/
def grant_access (cfg : Config) (s : SysState) : SysState :=
  control_led cfg "green" false (enable_servo_control cfg (control_led cfg "green" true s))

/-- deny_access (lines 104-110). -/
def deny_access (cfg : Config) (s : SysState) : SysState :=
  control_led cfg "red" false (disable_servo_control cfg (control_led cfg "red" true s))

/-! ## Credential decoding and evaluation -/

/-- Whitespace characters stripped by Python str.strip with no
argument (the Unicode whitespace set). -/
def pyWhitespace : List Char :=
  [' ', '\t', '\n', '\x0b', '\x0c', '\r',
   '\x1c', '\x1d', '\x1e', '\x1f', '\x85', '\xa0',
   Char.ofNat 0x1680, Char.ofNat 0x2000, Char.ofNat 0x2001, Char.ofNat 0x2002,
   Char.ofNat 0x2003, Char.ofNat 0x2004, Char.ofNat 0x2005, Char.ofNat 0x2006,
   Char.ofNat 0x2007, Char.ofNat 0x2008, Char.ofNat 0x2009, Char.ofNat 0x200a,
   Char.ofNat 0x2028, Char.ofNat 0x2029, Char.ofNat 0x202f, Char.ofNat 0x205f,
   Char.ofNat 0x3000]

def isPySpace (c : Char) : Bool := pyWhitespace.contains c

/-- Python str.strip(): drop leading and trailing whitespace. -/
def pyStrip (s : String) : String :=
  String.mk (((s.data.dropWhile isPySpace).reverse.dropWhile isPySpace).reverse)

/-- The decode step of handle_rfid_data (line 85): chr(byte) for each
byte of the USB read, joined. A byte is 0..255, for which chr never
raises, so the decode is a total function. -/
def decode (data : List (Fin 256)) : String :=
  String.mk (data.map fun b => Char.ofNat b.val)

/-- handle_rfid_data (lines 82-94): decode and strip the raw read,
then branch on list membership in config["authorized_cards"] (exact
string equality, as Python in on a list of str). The surrounding
try/except cannot fire in this path: decode is total and grant/deny
swallow their transport errors internally. -/
def handle_rfid_data (cfg : Config) (data : List (Fin 256)) (s : SysState) : SysState :=
  if pyStrip (decode data) ∈ cfg.authorized_cards then grant_access cfg s
  else deny_access cfg s

/-- The authorization predicate as the spec words it: the credential
string, after trimming surrounding whitespace, is a member of the
authorized set. Stated separately from handle_rfid_data so the two can
be compared. -/
def spec_is_authorized (cfg : Config) (c : String) : Prop :=
  pyStrip c ∈ cfg.authorized_cards

instance (cfg : Config) (c : String) : Decidable (spec_is_authorized cfg c) :=
  inferInstanceAs (Decidable (_ ∈ _))

/-- The card-registration branch of process_user_input (lines 190-196):
an empty (falsy) identifier or a duplicate is rejected with no change;
otherwise the identifier is appended to config["authorized_cards"].
The returned flag is whether the add happened. -/
def register_card (card : String) (cfg : Config) : Bool × Config :=
  if card ≠ "" ∧ card ∉ cfg.authorized_cards then
    (true, { cfg with authorized_cards := cfg.authorized_cards ++ [card] })
  else (false, cfg)

/-- One iteration body of send_status_updates (lines 149-162). -/
def status_update (cfg : Config) (s : SysState) : SysState :=
  send_command
    (.statusSnapshot s.current_servo_pos s.servo_control_enabled cfg.authorized_cards.length) s

/-- The ServoState invariant of the spec data model:
0 <= position <= 180. -/
def servoInvariant (s : SysState) : Prop :=
  0 ≤ s.current_servo_pos ∧ s.current_servo_pos ≤ 180

instance (s : SysState) : Decidable (servoInvariant s) :=
  inferInstanceAs (Decidable (_ ∧ _))

/-! ## Helper lemmas -/

theorem send_command_emitted (c : Command) (s : SysState) :
    (send_command c s).emitted = s.emitted ++ [c] := rfl

theorem send_command_enabled (c : Command) (s : SysState) :
    (send_command c s).servo_control_enabled = s.servo_control_enabled := rfl

theorem send_command_pos (c : Command) (s : SysState) :
    (send_command c s).current_servo_pos = s.current_servo_pos := rfl

theorem control_led_lookup_some {cfg : Config} {color : String} {p : Nat}
    (h : List.lookup color cfg.led_pins = some p) (st : Bool) (s : SysState) :
    control_led cfg color st s = send_command (.setLed color st) s := by
  unfold control_led; rw [h]

theorem control_led_lookup_none {cfg : Config} {color : String}
    (h : List.lookup color cfg.led_pins = none) (st : Bool) (s : SysState) :
    control_led cfg color st s = s := by
  unfold control_led; rw [h]

theorem enable_servo_control_fields (cfg : Config) (s : SysState) :
    (enable_servo_control cfg s).servo_control_enabled = true ∧
    (enable_servo_control cfg s).current_servo_pos = cfg.servo_allowed_pos ∧
    (enable_servo_control cfg s).emitted = s.emitted ++ [.servoEnable true] := by
  refine ⟨rfl, rfl, rfl⟩

theorem disable_servo_control_fields (cfg : Config) (s : SysState) :
    (disable_servo_control cfg s).servo_control_enabled = false ∧
    (disable_servo_control cfg s).current_servo_pos = cfg.servo_default_pos ∧
    (disable_servo_control cfg s).emitted = s.emitted ++ [.servoEnable false] := by
  refine ⟨rfl, rfl, rfl⟩

/-- grant_access fully described, given that the green led has a pin
entry: emission order and final servo fields. -/
theorem grant_access_spec {cfg : Config} {p : Nat}
    (h : List.lookup "green" cfg.led_pins = some p) (s : SysState) :
    (grant_access cfg s).emitted =
      s.emitted ++ [.setLed "green" true, .servoEnable true, .setLed "green" false] ∧
    (grant_access cfg s).servo_control_enabled = true ∧
    (grant_access cfg s).current_servo_pos = cfg.servo_allowed_pos := by
  unfold grant_access
  rw [control_led_lookup_some h, control_led_lookup_some h]
  refine ⟨?_, rfl, rfl⟩
  simp [send_command, enable_servo_control]

/-- deny_access fully described, given that the red led has a pin
entry. -/
theorem deny_access_spec {cfg : Config} {p : Nat}
    (h : List.lookup "red" cfg.led_pins = some p) (s : SysState) :
    (deny_access cfg s).emitted =
      s.emitted ++ [.setLed "red" true, .servoEnable false, .setLed "red" false] ∧
    (deny_access cfg s).servo_control_enabled = false ∧
    (deny_access cfg s).current_servo_pos = cfg.servo_default_pos := by
  unfold deny_access
  rw [control_led_lookup_some h, control_led_lookup_some h]
  refine ⟨?_, rfl, rfl⟩
  simp [send_command, disable_servo_control]

/-! ## Claims -/

/-- Claim C1: for every credential read whose decoded, trimmed
identifier is in the authorized set (and with the green led mapped to
a pin, as in the built-in configuration), handle_rfid_data runs the
grant transition: it emits, in order, SetLed green true, SetServoEnabled
true, SetLed green false, and ends with the servo enabled at
servo_allowed_pos. The state s carries an arbitrary fault oracle, so
the conclusion holds regardless of transport write failures: faults
only filter the wire trace, never the emission order or the servo
state. -/
theorem grant_transition_spec (cfg : Config) (s : SysState) (data : List (Fin 256)) (p : Nat)
    (hpin : List.lookup "green" cfg.led_pins = some p)
    (hauth : pyStrip (decode data) ∈ cfg.authorized_cards) :
    (handle_rfid_data cfg data s).emitted =
      s.emitted ++ [.setLed "green" true, .servoEnable true, .setLed "green" false] ∧
    (handle_rfid_data cfg data s).servo_control_enabled = true ∧
    (handle_rfid_data cfg data s).current_servo_pos = cfg.servo_allowed_pos := by
  unfold handle_rfid_data
  rw [if_pos hauth]
  exact grant_access_spec hpin s

/-- Witness for C1: the default configuration, raw bytes decoding to
"A1B2C3D4", an initial state whose fault oracle fails every write. -/
theorem grant_transition_spec_witness :
    (handle_rfid_data defaultConfig [65, 49, 66, 50, 67, 51, 68, 52]
        { initState with faults := [true, true, true] }).emitted =
      [.setLed "green" true, .servoEnable true, .setLed "green" false] ∧
    (handle_rfid_data defaultConfig [65, 49, 66, 50, 67, 51, 68, 52]
        { initState with faults := [true, true, true] }).servo_control_enabled = true ∧
    (handle_rfid_data defaultConfig [65, 49, 66, 50, 67, 51, 68, 52]
        { initState with faults := [true, true, true] }).current_servo_pos = 180 :=
  grant_transition_spec defaultConfig { initState with faults := [true, true, true] }
    [65, 49, 66, 50, 67, 51, 68, 52] 3 (by decide) (by decide)

/-- Claim C2: for every credential read whose decoded, trimmed
identifier is not in the authorized set (and with the red led mapped
to a pin, as in the built-in configuration), handle_rfid_data runs the
deny transition: SetLed red true, SetServoEnabled false, SetLed red
false, ending with the servo disabled at servo_default_pos, regardless
of transport write failures (the fault oracle inside s is
arbitrary). -/
theorem deny_transition_spec (cfg : Config) (s : SysState) (data : List (Fin 256)) (p : Nat)
    (hpin : List.lookup "red" cfg.led_pins = some p)
    (hauth : pyStrip (decode data) ∉ cfg.authorized_cards) :
    (handle_rfid_data cfg data s).emitted =
      s.emitted ++ [.setLed "red" true, .servoEnable false, .setLed "red" false] ∧
    (handle_rfid_data cfg data s).servo_control_enabled = false ∧
    (handle_rfid_data cfg data s).current_servo_pos = cfg.servo_default_pos := by
  unfold handle_rfid_data
  rw [if_neg hauth]
  exact deny_access_spec hpin s

/-- Witness for C2: bytes decoding to "ZZZZ9999", which is not in the
default authorized set; the fault oracle fails the second write. -/
theorem deny_transition_spec_witness :
    (handle_rfid_data defaultConfig [90, 90, 90, 90, 57, 57, 57, 57]
        { initState with faults := [false, true, false] }).emitted =
      [.setLed "red" true, .servoEnable false, .setLed "red" false] ∧
    (handle_rfid_data defaultConfig [90, 90, 90, 90, 57, 57, 57, 57]
        { initState with faults := [false, true, false] }).servo_control_enabled = false ∧
    (handle_rfid_data defaultConfig [90, 90, 90, 90, 57, 57, 57, 57]
        { initState with faults := [false, true, false] }).current_servo_pos = 90 :=
  deny_transition_spec defaultConfig { initState with faults := [false, true, false] }
    [90, 90, 90, 90, 57, 57, 57, 57] 4 (by decide) (by decide)

/-- Claim C3: the authorization decision of handle_rfid_data agrees,
for every configuration and every raw read, with the spec predicate
"the credential, after trimming surrounding whitespace, is a member of
the authorized set"; and the membership is case-sensitive with no
normalization beyond trimming, witnessed on the default set: the exact
identifier and a whitespace-padded copy pass, a lowercased copy does
not. -/
theorem authorization_check_spec :
    (∀ (cfg : Config) (data : List (Fin 256)) (s : SysState),
        handle_rfid_data cfg data s =
          if spec_is_authorized cfg (decode data) then grant_access cfg s
          else deny_access cfg s) ∧
    spec_is_authorized defaultConfig "A1B2C3D4" ∧
    spec_is_authorized defaultConfig " A1B2C3D4\n" ∧
    ¬ spec_is_authorized defaultConfig "a1b2c3d4" :=
  ⟨fun _ _ _ => rfl, by decide, by decide, by decide⟩

/-- Witness for C3: a read of a single space character is not
authorized, so handle_rfid_data takes the deny branch. -/
theorem authorization_check_spec_witness :
    handle_rfid_data defaultConfig [32] initState = deny_access defaultConfig initState :=
  (authorization_check_spec.1 defaultConfig [32] initState).trans (if_neg (by decide))

/-- Claim C4: set_servo_position accepts exactly the angles in
[0, 180]; on acceptance it writes the position and emits the
SetServoPosition command, on rejection it returns false with the state
unchanged and nothing emitted, and in either case the enabled flag is
untouched. -/
theorem set_servo_position_spec (angle : Int) (s : SysState) :
    ((set_servo_position angle s).1 = true ↔ 0 ≤ angle ∧ angle ≤ 180) ∧
    (0 ≤ angle ∧ angle ≤ 180 →
        (set_servo_position angle s).2.current_servo_pos = angle ∧
        (set_servo_position angle s).2.emitted = s.emitted ++ [.servoSetPosition angle]) ∧
    (¬(0 ≤ angle ∧ angle ≤ 180) → (set_servo_position angle s).2 = s) ∧
    (set_servo_position angle s).2.servo_control_enabled = s.servo_control_enabled := by
  unfold set_servo_position
  by_cases h : 0 ≤ angle ∧ angle ≤ 180
  · rw [if_pos h]
    exact ⟨by simp [h], fun _ => ⟨rfl, rfl⟩, fun hc => absurd h hc, rfl⟩
  · rw [if_neg h]
    exact ⟨by simp [h], fun hc => absurd hc h, fun _ => rfl, rfl⟩

/-- Witness for C4: angle 200 is rejected without any change, angle 42
is accepted, moves the position and leaves the enabled flag false. -/
theorem set_servo_position_spec_witness :
    (set_servo_position 200 initState).2 = initState ∧
    (set_servo_position 42 initState).2.current_servo_pos = 42 ∧
    (set_servo_position 42 initState).2.servo_control_enabled = false :=
  ⟨(set_servo_position_spec 200 initState).2.2.1 (by decide),
   ((set_servo_position_spec 42 initState).2.1 (by decide)).1,
   (set_servo_position_spec 42 initState).2.2.2⟩

/-- Claim C7: registering an identifier already in the authorized set
is rejected and leaves the configuration (hence the set and its size)
unchanged; the empty identifier is always rejected; any other
identifier is appended. -/
theorem register_card_spec (card : String) (cfg : Config) :
    (card ∈ cfg.authorized_cards →
        (register_card card cfg).1 = false ∧ (register_card card cfg).2 = cfg) ∧
    register_card "" cfg = (false, cfg) ∧
    (card ≠ "" → card ∉ cfg.authorized_cards →
        (register_card card cfg).1 = true ∧
        (register_card card cfg).2.authorized_cards = cfg.authorized_cards ++ [card]) := by
  refine ⟨fun hmem => ?_, ?_, fun hne hnm => ?_⟩
  · have h : ¬(card ≠ "" ∧ card ∉ cfg.authorized_cards) := fun hc => hc.2 hmem
    unfold register_card
    rw [if_neg h]
    exact ⟨rfl, rfl⟩
  · have h : ¬(("" : String) ≠ "" ∧ ("" : String) ∉ cfg.authorized_cards) := fun hc => hc.1 rfl
    unfold register_card
    rw [if_neg h]
  · unfold register_card
    rw [if_pos ⟨hne, hnm⟩]
    exact ⟨rfl, rfl⟩

/-- Witness for C7 on the default configuration: re-registering
"A1B2C3D4" changes nothing, the empty string is rejected, and a fresh
identifier is appended at the end. -/
theorem register_card_spec_witness :
    (register_card "A1B2C3D4" defaultConfig).2 = defaultConfig ∧
    register_card "" defaultConfig = (false, defaultConfig) ∧
    (register_card "NEW1" defaultConfig).2.authorized_cards =
      ["A1B2C3D4", "E5F6G7H8", "NEW1"] :=
  ⟨((register_card_spec "A1B2C3D4" defaultConfig).1 (by decide)).2,
   (register_card_spec "" defaultConfig).2.1,
   ((register_card_spec "NEW1" defaultConfig).2.2 (by decide) (by decide)).2⟩

/-- Claim C9: decoding a raw read is total — it yields a string with
one character per byte, so no byte sequence can make it raise — and
whenever the decoded, trimmed identifier is empty it fails the lookup
(the authorized set never contains the empty string: the built-in
default does not and register_card refuses it) and the deny transition
is taken. -/
theorem decode_total_empty_denied (cfg : Config) (data : List (Fin 256)) (s : SysState) :
    (decode data).length = data.length ∧
    ("" ∉ cfg.authorized_cards → pyStrip (decode data) = "" →
        handle_rfid_data cfg data s = deny_access cfg s) := by
  constructor
  · simp [decode, String.length]
  · intro hno hempty
    unfold handle_rfid_data
    rw [if_neg]
    rw [hempty]
    exact hno

/-- Witness for C9: a read of space, tab, newline decodes to a
three-character string that strips to empty and is denied under the
default configuration. -/
theorem decode_total_empty_denied_witness :
    (decode [32, 9, 10]).length = 3 ∧
    handle_rfid_data defaultConfig [32, 9, 10] initState = deny_access defaultConfig initState :=
  ⟨(decode_total_empty_denied defaultConfig [32, 9, 10] initState).1,
   (decode_total_empty_denied defaultConfig [32, 9, 10] initState).2 (by decide) (by decide)⟩

/-- Claim C10: for a color with no entry in the configured led pin
map, control_led is a silent no-op — the state (emission trace, wire
and all fields) is returned unchanged and nothing signals an error —
while a mapped color emits exactly its led command; a command is
emitted if and only if the color is present in the map. -/
theorem control_led_unmapped_spec (cfg : Config) (color : String) (st : Bool) (s : SysState) :
    (List.lookup color cfg.led_pins = none → control_led cfg color st s = s) ∧
    (∀ p, List.lookup color cfg.led_pins = some p →
        (control_led cfg color st s).emitted = s.emitted ++ [.setLed color st]) ∧
    ((control_led cfg color st s).emitted ≠ s.emitted ↔
        (List.lookup color cfg.led_pins).isSome = true) := by
  refine ⟨fun h => control_led_lookup_none h st s,
    fun p h => by rw [control_led_lookup_some h]; rfl, ?_⟩
  cases h : List.lookup color cfg.led_pins with
  | none =>
      rw [control_led_lookup_none h]
      simp
  | some p =>
      rw [control_led_lookup_some h]
      simp only [h, Option.isSome_some, iff_true]
      intro hEq
      have hlen := congrArg List.length hEq
      simp [send_command] at hlen

/-- Witness for C10: under the default pin map, "blue" is a no-op and
"green" emits its led command. -/
theorem control_led_unmapped_spec_witness :
    control_led defaultConfig "blue" true initState = initState ∧
    (control_led defaultConfig "green" true initState).emitted = [.setLed "green" true] :=
  ⟨(control_led_unmapped_spec defaultConfig "blue" true initState).1 (by decide),
   (control_led_unmapped_spec defaultConfig "green" true initState).2.1 3 (by decide)⟩

/-! ## Claim C5: the servo position invariant -/

theorem control_led_pos (cfg : Config) (color : String) (st : Bool) (s : SysState) :
    (control_led cfg color st s).current_servo_pos = s.current_servo_pos := by
  unfold control_led
  cases List.lookup color cfg.led_pins <;> rfl

theorem grant_access_pos (cfg : Config) (s : SysState) :
    (grant_access cfg s).current_servo_pos = cfg.servo_allowed_pos := by
  unfold grant_access
  rw [control_led_pos]
  rfl

theorem deny_access_pos (cfg : Config) (s : SysState) :
    (deny_access cfg s).current_servo_pos = cfg.servo_default_pos := by
  unfold deny_access
  rw [control_led_pos]
  rfl

/-- Counterexample to C5 as stated: load_config overlays the
configuration file with dict.update and no validation, so a loaded
configuration can carry servo_allowed_pos = 999; enable_servo_control
(the grant path position write) then writes 999 unchecked and the
invariant 0 <= position <= 180 fails after a position-writing
operation. -/
theorem servo_invariant_cex :
    (enable_servo_control { defaultConfig with servo_allowed_pos := 999 }
        initState).current_servo_pos = 999 ∧
    ¬ servoInvariant
        (enable_servo_control { defaultConfig with servo_allowed_pos := 999 } initState) :=
  ⟨rfl, by decide⟩

/-- Claim C5 amended: provided the configured servo_default_pos and
servo_allowed_pos lie within [0, 180] — true of the built-in defaults
— and the position satisfies the invariant beforehand, every operation
that writes the servo position preserves 0 <= position <= 180; the
manual set_servo_position path alone rejects out-of-range writes
unconditionally. -/
theorem servo_invariant_amended (cfg : Config) (s : SysState)
    (hd0 : 0 ≤ cfg.servo_default_pos) (hd1 : cfg.servo_default_pos ≤ 180)
    (ha0 : 0 ≤ cfg.servo_allowed_pos) (ha1 : cfg.servo_allowed_pos ≤ 180)
    (hs : servoInvariant s) :
    servoInvariant (enable_servo_control cfg s) ∧
    servoInvariant (disable_servo_control cfg s) ∧
    (∀ angle : Int, servoInvariant (set_servo_position angle s).2) ∧
    servoInvariant (grant_access cfg s) ∧
    servoInvariant (deny_access cfg s) ∧
    (∀ data : List (Fin 256), servoInvariant (handle_rfid_data cfg data s)) := by
  have hgrant : servoInvariant (grant_access cfg s) := by
    unfold servoInvariant
    rw [grant_access_pos]
    exact ⟨ha0, ha1⟩
  have hdeny : servoInvariant (deny_access cfg s) := by
    unfold servoInvariant
    rw [deny_access_pos]
    exact ⟨hd0, hd1⟩
  refine ⟨⟨ha0, ha1⟩, ⟨hd0, hd1⟩, ?_, hgrant, hdeny, ?_⟩
  · intro angle
    unfold set_servo_position
    by_cases h : 0 ≤ angle ∧ angle ≤ 180
    · rw [if_pos h]
      exact h
    · rw [if_neg h]
      exact hs
  · intro data
    unfold handle_rfid_data
    by_cases h : pyStrip (decode data) ∈ cfg.authorized_cards
    · rw [if_pos h]
      exact hgrant
    · rw [if_neg h]
      exact hdeny

/-- Witness for the amended C5: the default configuration and the
initial state; a grant keeps the invariant and an out-of-range manual
write is rejected, keeping it too. -/
theorem servo_invariant_amended_witness :
    servoInvariant (grant_access defaultConfig initState) ∧
    servoInvariant (set_servo_position 999 initState).2 :=
  ⟨(servo_invariant_amended defaultConfig initState (by decide) (by decide) (by decide)
      (by decide) (by decide)).2.2.2.1,
   (servo_invariant_amended defaultConfig initState (by decide) (by decide) (by decide)
      (by decide) (by decide)).2.2.1 999⟩

/-! ## Claim C8: the command encoding -/

theorem decDigit_ne_newline (n : Nat) : decDigit n ≠ '\n' := by
  have key : ∀ m, m < 10 → Char.ofNat (48 + m) ≠ '\n' := by decide
  exact key (n % 10) (Nat.mod_lt _ (by omega))

theorem hexDigit_ne_newline (n : Nat) (h : n < 16) : hexDigit n ≠ '\n' := by
  have key : ∀ m, m < 16 → hexDigit m ≠ '\n' := by decide
  exact key n h

theorem decChars_no_newline (n : Nat) : '\n' ∉ decChars n := by
  induction n using Nat.strong_induction_on with
  | _ n ih =>
    unfold decChars
    split
    · intro hmem
      rw [List.mem_singleton] at hmem
      exact decDigit_ne_newline n hmem.symm
    · next h =>
      intro hmem
      rcases List.mem_append.mp hmem with hmem | hmem
      · exact ih (n / 10) (Nat.div_lt_self (by omega) (by omega)) hmem
      · rw [List.mem_singleton] at hmem
        exact decDigit_ne_newline n hmem.symm

theorem intChars_no_newline (i : Int) : '\n' ∉ intChars i := by
  unfold intChars
  split
  · intro hmem
    rcases List.mem_cons.mp hmem with hmem | hmem
    · exact absurd hmem (by decide)
    · exact decChars_no_newline _ hmem
  · exact decChars_no_newline _

theorem boolChars_no_newline (b : Bool) : '\n' ∉ boolChars b := by
  cases b <;> decide

theorem uEscape_no_newline (n : Nat) : '\n' ∉ uEscape n := by
  have h1 := hexDigit_ne_newline (n / 4096 % 16) (Nat.mod_lt _ (by omega))
  have h2 := hexDigit_ne_newline (n / 256 % 16) (Nat.mod_lt _ (by omega))
  have h3 := hexDigit_ne_newline (n / 16 % 16) (Nat.mod_lt _ (by omega))
  have h4 := hexDigit_ne_newline (n % 16) (Nat.mod_lt _ (by omega))
  intro hmem
  simp only [uEscape, hex4, List.mem_cons, List.not_mem_nil, or_false] at hmem
  rcases hmem with h | h | h | h | h | h
  · exact absurd h (by decide)
  · exact absurd h (by decide)
  · exact h1 h.symm
  · exact h2 h.symm
  · exact h3 h.symm
  · exact h4 h.symm

theorem jsonEscapeChar_no_newline (c : Char) : '\n' ∉ jsonEscapeChar c := by
  unfold jsonEscapeChar
  split
  · decide
  split
  · decide
  split
  · decide
  split
  · decide
  split
  · decide
  split
  · decide
  split
  · decide
  split
  · split
    · intro hmem
      rcases List.mem_append.mp hmem with hmem | hmem
      · exact uEscape_no_newline _ hmem
      · exact uEscape_no_newline _ hmem
    · exact uEscape_no_newline _
  · next h =>
    intro hmem
    rw [List.mem_singleton] at hmem
    rw [not_or] at h
    have hge : 0x20 ≤ c.toNat := by omega
    subst hmem
    simp at hge

theorem jsonQuote_no_newline (s : String) : '\n' ∉ jsonQuote s := by
  intro hmem
  unfold jsonQuote at hmem
  rcases List.mem_cons.mp hmem with hmem | hmem
  · exact absurd hmem (by decide)
  rcases List.mem_append.mp hmem with hmem | hmem
  · rcases List.mem_flatMap.mp hmem with ⟨c, _, hc⟩
    exact jsonEscapeChar_no_newline c hc
  · rw [List.mem_singleton] at hmem
    exact absurd hmem (by decide)

theorem encodeChars_no_newline (c : Command) : '\n' ∉ encodeChars c := by
  cases c with
  | setLed color state =>
      intro hmem
      unfold encodeChars at hmem
      simp only [List.mem_append] at hmem
      rcases hmem with ((((h | h) | h) | h) | h)
      · exact absurd h (by decide)
      · exact jsonQuote_no_newline color h
      · exact absurd h (by decide)
      · exact boolChars_no_newline state h
      · exact absurd h (by decide)
  | servoEnable b =>
      intro hmem
      unfold encodeChars at hmem
      simp only [List.mem_append] at hmem
      rcases hmem with ((h | h) | h)
      · exact absurd h (by decide)
      · exact boolChars_no_newline b h
      · exact absurd h (by decide)
  | servoSetPosition angle =>
      intro hmem
      unfold encodeChars at hmem
      simp only [List.mem_append] at hmem
      rcases hmem with ((h | h) | h)
      · exact absurd h (by decide)
      · exact intChars_no_newline angle h
      · exact absurd h (by decide)
  | statusSnapshot pos en n =>
      intro hmem
      unfold encodeChars at hmem
      simp only [List.mem_append] at hmem
      rcases hmem with ((((((h | h) | h) | h) | h) | h) | h)
      · exact absurd h (by decide)
      · exact intChars_no_newline pos h
      · exact absurd h (by decide)
      · exact boolChars_no_newline en h
      · exact absurd h (by decide)
      · exact decChars_no_newline n h
      · exact absurd h (by decide)

/-- Claim C8: command encoding is deterministic and total — encode is
a total function on the command type, equal commands yield
byte-identical encoded lines — and each command yields exactly one
newline-terminated record: the line ends with the newline and contains
no other newline character. -/
theorem encode_deterministic_total :
    (∀ c₁ c₂ : Command, c₁ = c₂ → encodeLine c₁ = encodeLine c₂) ∧
    (∀ c : Command,
        (encodeLine c).data.getLast? = some '\n' ∧
        (encodeLine c).data.count '\n' = 1) := by
  refine ⟨fun c₁ c₂ h => by rw [h], fun c => ?_⟩
  have hnl := encodeChars_no_newline c
  constructor
  · show (encodeChars c ++ ['\n']).getLast? = some '\n'
    simp
  · show (encodeChars c ++ ['\n']).count '\n' = 1
    rw [List.count_append, List.count_eq_zero.mpr hnl]
    rfl

/-- Witness for C8: a concrete command encoded twice gives the same
line, and the status snapshot line carries exactly one newline. -/
theorem encode_deterministic_total_witness :
    encodeLine (.servoEnable true) = encodeLine (.servoEnable true) ∧
    (encodeLine (.statusSnapshot 90 false 2)).data.count '\n' = 1 :=
  ⟨encode_deterministic_total.1 (.servoEnable true) (.servoEnable true) rfl,
   (encode_deterministic_total.2 (.statusSnapshot 90 false 2)).2⟩

end RFIDServo
